import Mathlib

/-!
Shallow embedding of the LoadBalancer session admission and accounting core
(`src/LoadBalancer/loadbalancer.js`).  Redis state is modelled as a record of
total maps; each HTTP endpoint becomes a pure function from state (and the
request payload, plus a `now : Nat` clock for key expiry) to a result code and
a successor state.
-/

/-- A backend descriptor as stored in the `apiPool` hash: the parsed JSON
`{apiKey, characterId, maxSessions, enabled}`.  `enabled` is `none` when the
JSON field is absent (legacy records). -/
structure ApiData where
  apiKey : String
  characterId : String
  maxSessions : Int
  enabled : Option Bool
deriving Repr, DecidableEq

/-- A session record as stored under `user:{userId}`: the parsed JSON
`{apiId, apiKey, characterId}` plus the absolute expiry instant that Redis
attaches via `SET ... EX`. -/
structure StoredSession where
  apiId : String
  apiKey : String
  characterId : String
  expiresAt : Nat
deriving Repr, DecidableEq

/-- An entry of the `sessionEventsLog` Redis list (`logSessionEvent`). -/
structure AuditEvent where
  time : Nat
  etype : String
  userId : String
  apiId : String
  message : String
deriving Repr, DecidableEq

/-- The Redis state the load balancer manipulates:
`apiPool` hash (as an association list in hash iteration order),
`user:{u}` session keys, `api:{id}:sessions` and `api:{id}:closedSessions`
counters (absent key reads as `0` via `Number(await redis.get(k) || 0)`),
`api:{id}:users` sets, and the `sessionEventsLog` list (head = newest). -/
structure LBState where
  apiPool : List (String × ApiData)
  sessions : String → Option StoredSession
  active : String → Int
  closed : String → Int
  users : String → List String
  log : List AuditEvent

/-- JS `String.prototype.trim`: drop whitespace from both ends (modelled over
the character list so that the kernel can evaluate it). -/
def strTrim (s : String) : String :=
  String.mk (((s.data.dropWhile Char.isWhitespace).reverse.dropWhile
                Char.isWhitespace).reverse)

/-- The JS request-field guard `x && typeof x === 'string' && x.trim() !== ''`
restricted to strings. -/
def strOk (s : String) : Bool := !(strTrim s == "")

/-- Point update of a total map (a single Redis key write). -/
def upd {α : Type} (f : String → α) (k : String) (v : α) : String → α :=
  fun x => if x = k then v else f x

/-- Redis `SADD` on the list model of a set: add the element if absent. -/
def sadd (l : List String) (x : String) : List String :=
  if l.contains x then l else l ++ [x]

/-- Redis `SREM` on the list model of a set. -/
def srem (l : List String) (x : String) : List String :=
  l.filter (fun y => !(y == x))

/-- `hexists('apiPool', id)`. -/
def hasKey (pool : List (String × ApiData)) (id : String) : Bool :=
  pool.any (fun p => p.1 == id)

/-- `hget('apiPool', id)` (parsed). -/
def lookupPool (pool : List (String × ApiData)) (id : String) : Option ApiData :=
  (pool.find? (fun p => p.1 == id)).map (fun p => p.2)

/-- `hset('apiPool', id, d)` for an `id` already present: replace in place,
preserving hash iteration order. -/
def setPool (pool : List (String × ApiData)) (id : String) (d : ApiData) :
    List (String × ApiData) :=
  pool.map (fun p => if p.1 == id then (id, d) else p)

/-- `redis.get('user:'++u)` at instant `now`: an expired key reads as absent. -/
def liveSession (st : LBState) (now : Nat) (u : String) : Option StoredSession :=
  match st.sessions u with
  | some r => if now < r.expiresAt then some r else none
  | none => none

/-- Structural validation of an existing session record on the reuse path of
`/api/get-api-session`: `apiId`, `apiKey` and `characterId` must be non-empty
(after trim) strings. -/
def validSessionRec (r : StoredSession) : Bool :=
  strOk r.apiId && strOk r.apiKey && strOk r.characterId

/-- `logSessionEvent`: `LPUSH` to the head of `sessionEventsLog`, then
`LTRIM 0 99`. -/
def logSessionEvent (log : List AuditEvent) (e : AuditEvent) : List AuditEvent :=
  (e :: log).take 100

def mkEvent (now : Nat) (t u a m : String) : AuditEvent :=
  { time := now, etype := t, userId := u, apiId := a, message := m }

/-- Eligibility test of `getAvailableAPI` for one `apiPool` entry: the parsed
data must have a positive numeric `maxSessions`, `enabled` must not be
strictly `false`, and the live session count must be below `maxSessions`. -/
def availOk (st : LBState) (id : String) (d : ApiData) : Bool :=
  decide (0 < d.maxSessions) && !(d.enabled == some false)
    && decide (st.active id < d.maxSessions)

/-- `getAvailableAPI`: scan the `apiPool` hash in iteration order and return
the first entry passing `availOk`, or `none` when every entry is skipped. -/
def getAvailableAPI (st : LBState) : Option (String × ApiData) :=
  st.apiPool.find? (fun p => availOk st p.1 p.2)

inductive AdmitResult where
  | invalidInput
  | reused (apiId apiKey characterId : String)
  | assigned (apiId apiKey characterId : String)
  | capacityExhausted
deriving Repr, DecidableEq

/-- `SESSION_TTL = 60 * 15` seconds. -/
def SESSION_TTL : Nat := 60 * 15

/-- The fresh-assignment tail of `/api/get-api-session` (from the
`getAvailableAPI` call onward): store the snapshot session record with TTL,
increment `api:{id}:sessions`, `SADD` the user; or answer 503 with no write
when no backend is available. -/
def assignNew (st : LBState) (u : String) (now : Nat) : AdmitResult × LBState :=
  match getAvailableAPI st with
  | none => (.capacityExhausted, st)
  | some (id, d) =>
      (.assigned id d.apiKey d.characterId,
       { st with
         sessions := upd st.sessions u
           (some { apiId := id, apiKey := d.apiKey, characterId := d.characterId,
                   expiresAt := now + SESSION_TTL }),
         active := upd st.active id (st.active id + 1),
         users := upd st.users id (sadd (st.users id) u) })

/-- `POST /api/get-api-session`: validate `userId`; reuse a live structurally
valid session untouched; delete a live malformed record and fall through to a
fresh assignment; otherwise assign fresh. -/
def getApiSession (st : LBState) (u : String) (now : Nat) : AdmitResult × LBState :=
  if !(strOk u) then (.invalidInput, st)
  else
    match liveSession st now u with
    | some r =>
        if validSessionRec r then (.reused r.apiId r.apiKey r.characterId, st)
        else assignNew { st with sessions := upd st.sessions u none } u now
    | none => assignNew st u now

inductive EndResult where
  | invalidInput
  | noSessionOk
  | corruptCleared
  | endedOk
deriving Repr, DecidableEq

/-- `POST /api/end-session`: no-op success when no live session; on a live
record whose `apiId` fails validation, delete it and report corrupt; otherwise
decrement `api:{id}:sessions` only when it is currently positive, delete the
session key, `SREM` the user, increment `closedSessions`, log `session_ended`. -/
def endSession (st : LBState) (u : String) (now : Nat) : EndResult × LBState :=
  if !(strOk u) then (.invalidInput, st)
  else
    match liveSession st now u with
    | none =>
        (.noSessionOk,
         { st with log := logSessionEvent st.log
                            (mkEvent now "session_end_no_op" u "unknown" "No active session found.") })
    | some r =>
        if !(strOk r.apiId) then
          (.corruptCleared,
           { st with
             sessions := upd st.sessions u none,
             log := logSessionEvent st.log
               (mkEvent now "session_end_corrupt" u "unknown" "Corrupt session data cleared.") })
        else
          (.endedOk,
           { st with
             active := if st.active r.apiId > 0 then
                 upd st.active r.apiId (st.active r.apiId - 1)
               else st.active,
             sessions := upd st.sessions u none,
             users := upd st.users r.apiId (srem (st.users r.apiId) u),
             closed := upd st.closed r.apiId (st.closed r.apiId + 1),
             log := logSessionEvent st.log (mkEvent now "session_ended" u r.apiId "") })

inductive RegResult where
  | invalidInput
  | conflict
  | notFound
  | ok
deriving Repr, DecidableEq

/-- `POST /api/add-api`: reject unless `apiId`, `apiKey`, `characterId` are
non-empty strings and `maxSessions` is a positive number; reject a duplicate
id; otherwise append the entry with `enabled := true`, set both counters to 0
and initialise the user set via `SADD`/`SREM` of a dummy member. -/
def addApi (st : LBState) (apiId apiKey characterId : String) (maxSessions : Int) :
    RegResult × LBState :=
  if !(strOk apiId) || !(strOk apiKey) || !(strOk characterId)
      || decide (maxSessions ≤ 0) then
    (.invalidInput, st)
  else if hasKey st.apiPool apiId then (.conflict, st)
  else
    (.ok,
     { st with
       apiPool := st.apiPool ++
         [(apiId, { apiKey := apiKey, characterId := characterId,
                    maxSessions := maxSessions, enabled := some true })],
       active := upd st.active apiId 0,
       closed := upd st.closed apiId 0,
       users := upd st.users apiId
         (srem (sadd (st.users apiId) "dummy_init_value") "dummy_init_value") })

/-- The `updatedApiData` object built by `POST /api/update-api`: each
provided, individually valid field overrides the existing record (a provided
but invalid field silently falls back to the existing value; provided strings
are stored trimmed). -/
def mergeApiData (old : ApiData) (apiKey characterId : Option String)
    (maxSessions : Option Int) (enabled : Option Bool) : ApiData :=
  { apiKey := match apiKey with
      | some s => if strOk s then strTrim s else old.apiKey
      | none => old.apiKey,
    characterId := match characterId with
      | some s => if strOk s then strTrim s else old.characterId
      | none => old.characterId,
    maxSessions := match maxSessions with
      | some m => if 0 < m then m else old.maxSessions
      | none => old.maxSessions,
    enabled := match enabled with
      | some b => some b
      | none => old.enabled }

/-- `POST /api/update-api`: merge the provided fields over the existing
record via `mergeApiData`, then reject with 400 when the merged record has an
empty `apiKey` or `characterId`, a non-positive `maxSessions`, or a
non-boolean `enabled`; otherwise store the merged record. -/
def updateApi (st : LBState) (apiId : String) (apiKey characterId : Option String)
    (maxSessions : Option Int) (enabled : Option Bool) : RegResult × LBState :=
  if !(strOk apiId) then (.invalidInput, st)
  else
    match lookupPool st.apiPool apiId with
    | none => (.notFound, st)
    | some old =>
        if (mergeApiData old apiKey characterId maxSessions enabled).apiKey == ""
            || (mergeApiData old apiKey characterId maxSessions enabled).characterId == ""
            || decide ((mergeApiData old apiKey characterId maxSessions enabled).maxSessions ≤ 0)
            || (mergeApiData old apiKey characterId maxSessions enabled).enabled == none then
          (.invalidInput, st)
        else
          (.ok, { st with apiPool := setPool st.apiPool apiId
                            (mergeApiData old apiKey characterId maxSessions enabled) })

/-- `POST /api/toggle-api-status`: overwrite only the `enabled` field. -/
def toggleApiStatus (st : LBState) (apiId : String) (enabled : Bool) :
    RegResult × LBState :=
  if !(strOk apiId) then (.invalidInput, st)
  else
    match lookupPool st.apiPool apiId with
    | none => (.notFound, st)
    | some old =>
        (.ok, { st with apiPool := setPool st.apiPool apiId
                          { old with enabled := some enabled } })

/-- `DELETE /api/remove-api`: drop the registry entry and delete the two
counters and the user set (a deleted key reads back as `0` / empty). -/
def removeApi (st : LBState) (apiId : String) : RegResult × LBState :=
  if !(strOk apiId) then (.invalidInput, st)
  else if !(hasKey st.apiPool apiId) then (.notFound, st)
  else
    (.ok,
     { st with
       apiPool := st.apiPool.filter (fun p => !(p.1 == apiId)),
       active := upd st.active apiId 0,
       closed := upd st.closed apiId 0,
       users := upd st.users apiId [] })

inductive BulkResult where
  | invalidInput
  | notFound
  | ok (cleared : Nat)
deriving Repr, DecidableEq

/-- `POST /api/end-all-sessions-for-api`: read `api:{id}:users`, delete every
member's `user:{u}` key, reset `api:{id}:sessions` to 0, add the cleared count
to `closedSessions`, delete the user set, log `bulk_session_ended`. -/
def endAllSessionsForApi (st : LBState) (apiId : String) (now : Nat) :
    BulkResult × LBState :=
  if !(strOk apiId) then (.invalidInput, st)
  else if !(hasKey st.apiPool apiId) then (.notFound, st)
  else
    (.ok (st.users apiId).length,
     { st with
       sessions := fun x => if (st.users apiId).contains x then none else st.sessions x,
       active := upd st.active apiId 0,
       closed := upd st.closed apiId (st.closed apiId + (st.users apiId).length),
       users := upd st.users apiId [],
       log := logSessionEvent st.log
         (mkEvent now "bulk_session_ended" "N/A" apiId "") })

/-- `GET /api/session-events`: `LRANGE sessionEventsLog 0 99`. -/
def readEvents (st : LBState) : List AuditEvent := st.log.take 100

/-- `DELETE /api/session-events`: `DEL sessionEventsLog`. -/
def clearEvents (st : LBState) : LBState := { st with log := [] }

/-- One request to any state-bearing exposed endpoint. -/
inductive Op where
  | acquire (u : String) (now : Nat)
  | endOne (u : String) (now : Nat)
  | add (apiId apiKey characterId : String) (maxSessions : Int)
  | update (apiId : String) (apiKey characterId : Option String)
      (maxSessions : Option Int) (enabled : Option Bool)
  | toggle (apiId : String) (enabled : Bool)
  | remove (apiId : String)
  | endAll (apiId : String) (now : Nat)
  | clearLog

def applyOp (st : LBState) : Op → LBState
  | .acquire u now => (getApiSession st u now).2
  | .endOne u now => (endSession st u now).2
  | .add a k c m => (addApi st a k c m).2
  | .update a k c m e => (updateApi st a k c m e).2
  | .toggle a e => (toggleApiStatus st a e).2
  | .remove a => (removeApi st a).2
  | .endAll a now => (endAllSessionsForApi st a now).2
  | .clearLog => clearEvents st

/-- Empty store: nothing registered, every key absent. -/
def initState : LBState :=
  { apiPool := [], sessions := fun _ => none, active := fun _ => 0,
    closed := fun _ => 0, users := fun _ => [], log := [] }

def runOps (ops : List Op) : LBState := ops.foldl applyOp initState

/-- A state produced by some sequence of exposed operations from the empty
store. -/
def Reachable (st : LBState) : Prop := ∃ ops : List Op, st = runOps ops

/-- Eligibility as worded by the spec: skip a backend that is disabled or
whose `activeCount >= capacity`; everything else is eligible.  (Spec-side
definition, to be compared with the code-side `availOk`.) -/
def eligibleSpec (st : LBState) (p : String × ApiData) : Bool :=
  !(p.2.enabled == some false) && decide (st.active p.1 < p.2.maxSessions)

/-- The accounting invariant of interest for the counters: no backend's
active-session counter is negative. -/
def CountersNonneg (st : LBState) : Prop := ∀ id : String, 0 ≤ st.active id

/-- The audit log obtained by a sequence of `record` calls starting from an
empty log. -/
def buildLog (es : List AuditEvent) : List AuditEvent :=
  es.foldl logSessionEvent []

/-- Example registry for the first-fit witness: a disabled backend, then a
full one, then an eligible one. -/
def c1Example : LBState :=
  { apiPool := [("a", { apiKey := "ka", characterId := "ca", maxSessions := 5,
                        enabled := some false }),
                ("b", { apiKey := "kb", characterId := "cb", maxSessions := 1,
                        enabled := some true }),
                ("c", { apiKey := "kc", characterId := "cc", maxSessions := 2,
                        enabled := some true })],
    sessions := fun _ => none,
    active := fun x => if x = "b" then 1 else 0,
    closed := fun _ => 0,
    users := fun x => if x = "b" then ["w1"] else [],
    log := [] }

/-- Example state holding one live, structurally valid session for `u1`. -/
def c3Example : LBState :=
  { apiPool := [],
    sessions := fun x =>
      if x = "u1" then
        some { apiId := "b1", apiKey := "k1", characterId := "c1", expiresAt := 900 }
      else none,
    active := fun _ => 1,
    closed := fun _ => 0,
    users := fun x => if x = "b1" then ["u1"] else [],
    log := [] }

/-- Example registry entry for the capacity-validation counterexample. -/
def c4Example : LBState :=
  { apiPool := [("b1", { apiKey := "k", characterId := "c", maxSessions := 3,
                         enabled := some true })],
    sessions := fun _ => none,
    active := fun _ => 0,
    closed := fun _ => 0,
    users := fun _ => [],
    log := [] }

/-- Example state with two active sessions on backend `b1`. -/
def c5Example : LBState :=
  { apiPool := [("b1", { apiKey := "k", characterId := "c", maxSessions := 5,
                         enabled := some true })],
    sessions := fun x =>
      if x = "u1" then
        some { apiId := "b1", apiKey := "k", characterId := "c", expiresAt := 900 }
      else if x = "u2" then
        some { apiId := "b1", apiKey := "k", characterId := "c", expiresAt := 900 }
      else none,
    active := fun x => if x = "b1" then 2 else 0,
    closed := fun x => if x = "b1" then 7 else 0,
    users := fun x => if x = "b1" then ["u1", "u2"] else [],
    log := [] }

/-- Operation sequence whose final state still holds a live session for `u1`
on the removed backend `b1`, with `activeCount` already reset to zero. -/
def c6Ops : List Op :=
  [Op.add "b1" "k" "c" 1, Op.acquire "u1" 0, Op.remove "b1"]

/-- Example state for the terminate-without-session witness. -/
def c7Example : LBState :=
  { apiPool := [("b1", { apiKey := "k", characterId := "c", maxSessions := 5,
                         enabled := some true })],
    sessions := fun _ => none,
    active := fun x => if x = "b1" then 3 else 0,
    closed := fun x => if x = "b1" then 4 else 0,
    users := fun x => if x = "b1" then ["u9"] else [],
    log := [] }

/-- Example state whose stored session for `u1` fails structural validation
(empty `apiKey`) while it still counts against backend `b0`, and whose
registry offers `b1` for a fresh assignment. -/
def c9Example : LBState :=
  { apiPool := [("b1", { apiKey := "k1", characterId := "c1", maxSessions := 5,
                         enabled := some true })],
    sessions := fun x =>
      if x = "u1" then
        some { apiId := "b0", apiKey := "", characterId := "c0", expiresAt := 1000 }
      else none,
    active := fun x => if x = "b0" then 1 else 0,
    closed := fun _ => 0,
    users := fun x => if x = "b0" then ["u1"] else [],
    log := [] }

/-- First run state for the reuse-snapshot witness: the backend is still
registered with a rotated credential. -/
def c10ExampleA : LBState :=
  { apiPool := [("b1", { apiKey := "rotated", characterId := "c9",
                         maxSessions := 5, enabled := some true })],
    sessions := fun x =>
      if x = "u1" then
        some { apiId := "b1", apiKey := "k1", characterId := "c1", expiresAt := 900 }
      else none,
    active := fun x => if x = "b1" then 1 else 0,
    closed := fun _ => 0,
    users := fun x => if x = "b1" then ["u1"] else [],
    log := [] }

/-- Second run state for the reuse-snapshot witness: same session record,
backend meanwhile removed from the registry. -/
def c10ExampleB : LBState :=
  { apiPool := [],
    sessions := fun x =>
      if x = "u1" then
        some { apiId := "b1", apiKey := "k1", characterId := "c1", expiresAt := 900 }
      else none,
    active := fun _ => 0,
    closed := fun _ => 0,
    users := fun _ => [],
    log := [] }

/-- Claim C2: from the empty pool, adding backend `b1` with capacity 1,
admitting `u1` assigns `b1`; a subsequent admission of `u2` fails with
capacity exhausted; after terminating `u1`, admitting `u2` assigns `b1`. -/
theorem c2_capacity_one_scenario :
    (addApi initState "b1" "k1" "c1" 1).1 = RegResult.ok ∧
    (getApiSession (addApi initState "b1" "k1" "c1" 1).2 "u1" 0).1
      = AdmitResult.assigned "b1" "k1" "c1" ∧
    (getApiSession (getApiSession (addApi initState "b1" "k1" "c1" 1).2 "u1" 0).2
        "u2" 1).1 = AdmitResult.capacityExhausted ∧
    (endSession (getApiSession (getApiSession (addApi initState "b1" "k1" "c1" 1).2
        "u1" 0).2 "u2" 1).2 "u1" 2).1 = EndResult.endedOk ∧
    (getApiSession (endSession (getApiSession (getApiSession
        (addApi initState "b1" "k1" "c1" 1).2 "u1" 0).2 "u2" 1).2 "u1" 2).2
        "u2" 3).1 = AdmitResult.assigned "b1" "k1" "c1" := by
  decide

/-- Claim C3: a requester holding a live, structurally valid session gets the
stored backend binding back and the whole store — counters, user sets, and the
session record together with its expiry — is left untouched, so every repeated
call answers identically. -/
theorem c3_reuse_frame (st : LBState) (u : String) (now : Nat) (r : StoredSession)
    (hu : strOk u = true) (hs : liveSession st now u = some r)
    (hv : validSessionRec r = true) :
    getApiSession st u now = (AdmitResult.reused r.apiId r.apiKey r.characterId, st) ∧
    getApiSession (getApiSession st u now).2 u now = getApiSession st u now := by
  have h1 : getApiSession st u now
      = (AdmitResult.reused r.apiId r.apiKey r.characterId, st) := by
    simp [getApiSession, hu, hs, hv]
  exact ⟨h1, by rw [h1]; exact h1⟩

theorem c3_reuse_frame_witness :
    getApiSession c3Example "u1" 10
      = (AdmitResult.reused "b1" "k1" "c1", c3Example) ∧
    getApiSession (getApiSession c3Example "u1" 10).2 "u1" 10
      = getApiSession c3Example "u1" 10 :=
  c3_reuse_frame c3Example "u1" 10
    { apiId := "b1", apiKey := "k1", characterId := "c1", expiresAt := 900 }
    (by decide) (by decide) (by decide)

/-- Claim C7: terminating a requester with no stored session record reports
success (the no-op result) and leaves every backend's active counter, closed
counter and active-user set — indeed the whole session store — unchanged. -/
theorem c7_end_no_session (st : LBState) (u : String) (now : Nat)
    (hu : strOk u = true) (hs : st.sessions u = none) :
    (endSession st u now).1 = EndResult.noSessionOk ∧
    (endSession st u now).2.active = st.active ∧
    (endSession st u now).2.closed = st.closed ∧
    (endSession st u now).2.users = st.users ∧
    (endSession st u now).2.sessions = st.sessions := by
  have hl : liveSession st now u = none := by simp [liveSession, hs]
  simp [endSession, hu, hl]

theorem c7_end_no_session_witness :
    (endSession c7Example "u7" 5).1 = EndResult.noSessionOk ∧
    (endSession c7Example "u7" 5).2.active = c7Example.active ∧
    (endSession c7Example "u7" 5).2.closed = c7Example.closed ∧
    (endSession c7Example "u7" 5).2.users = c7Example.users ∧
    (endSession c7Example "u7" 5).2.sessions = c7Example.sessions :=
  c7_end_no_session c7Example "u7" 5 (by decide) rfl

/-- Claim C10: the reuse path answers purely from the snapshot stored in the
session record: two runs whose session record for the requester agrees return
the same response even when their registries differ arbitrarily. -/
theorem c10_reuse_snapshot (stA stB : LBState) (u : String) (now : Nat)
    (r : StoredSession) (hu : strOk u = true)
    (hsess : stA.sessions u = stB.sessions u)
    (hs : liveSession stA now u = some r) (hv : validSessionRec r = true) :
    (getApiSession stA u now).1 = (getApiSession stB u now).1 := by
  have hs2 : liveSession stB now u = some r := by
    unfold liveSession at hs ⊢
    rw [← hsess]
    exact hs
  simp [getApiSession, hu, hs, hs2, hv]

theorem c10_reuse_snapshot_witness :
    (getApiSession c10ExampleA "u1" 10).1 = (getApiSession c10ExampleB "u1" 10).1 :=
  c10_reuse_snapshot c10ExampleA c10ExampleB "u1" 10
    { apiId := "b1", apiKey := "k1", characterId := "c1", expiresAt := 900 }
    (by decide) rfl (by decide) (by decide)

/-- Claim C5: bulk termination for a registered backend zeroes its active
counter, empties its active-user set, adds exactly the prior size of that set
to its closed counter, and deletes the session record of every user that was
in the set. -/
theorem c5_end_all_sessions (st : LBState) (a : String) (now : Nat)
    (ha : strOk a = true) (hm : hasKey st.apiPool a = true) :
    (endAllSessionsForApi st a now).1 = BulkResult.ok (st.users a).length ∧
    (endAllSessionsForApi st a now).2.active a = 0 ∧
    (endAllSessionsForApi st a now).2.users a = [] ∧
    (endAllSessionsForApi st a now).2.closed a
      = st.closed a + ((st.users a).length : Int) ∧
    ∀ u ∈ st.users a, (endAllSessionsForApi st a now).2.sessions u = none := by
  refine ⟨?_, ?_, ?_, ?_, ?_⟩ <;>
    simp [endAllSessionsForApi, ha, hm, upd]
  intro u hu hn
  exact absurd hu hn

theorem c5_end_all_sessions_witness :
    (endAllSessionsForApi c5Example "b1" 4).1 = BulkResult.ok 2 ∧
    (endAllSessionsForApi c5Example "b1" 4).2.active "b1" = 0 ∧
    (endAllSessionsForApi c5Example "b1" 4).2.users "b1" = [] ∧
    (endAllSessionsForApi c5Example "b1" 4).2.closed "b1" = 9 ∧
    (endAllSessionsForApi c5Example "b1" 4).2.sessions "u1" = none ∧
    (endAllSessionsForApi c5Example "b1" 4).2.sessions "u2" = none := by
  have h := c5_end_all_sessions c5Example "b1" 4 (by decide) (by decide)
  refine ⟨h.1, h.2.1, h.2.2.1, ?_, ?_, ?_⟩
  · have := h.2.2.2.1
    simpa [c5Example] using this
  · exact h.2.2.2.2 "u1" (by decide)
  · exact h.2.2.2.2 "u2" (by decide)

/-- On an entry with positive capacity, the code's skip test coincides with
the spec's "disabled or at capacity" skip test. -/
theorem availOk_eq_eligibleSpec (st : LBState) (p : String × ApiData)
    (hp : 0 < p.2.maxSessions) :
    availOk st p.1 p.2 = eligibleSpec st p := by
  unfold availOk eligibleSpec
  simp [hp]

/-- When every registered backend respects the `capacity > 0` invariant, the
code's scan is exactly the spec's first-fit scan. -/
theorem getAvailableAPI_eq_spec (st : LBState)
    (hcap : ∀ p ∈ st.apiPool, 0 < p.2.maxSessions) :
    getAvailableAPI st = st.apiPool.find? (eligibleSpec st) := by
  unfold getAvailableAPI
  have main : ∀ l : List (String × ApiData), (∀ p ∈ l, 0 < p.2.maxSessions) →
      l.find? (fun p => availOk st p.1 p.2) = l.find? (eligibleSpec st) := by
    intro l
    induction l with
    | nil => intro _; rfl
    | cons p ps ih =>
      intro h
      obtain ⟨id, d⟩ := p
      have hp : 0 < d.maxSessions := h (id, d) (List.mem_cons_self _ ps)
      have hrest : ∀ q ∈ ps, 0 < q.2.maxSessions :=
        fun q hq => h q (List.mem_cons_of_mem _ hq)
      have hpe : availOk st id d = eligibleSpec st (id, d) :=
        availOk_eq_eligibleSpec st (id, d) hp
      simp only [List.find?, hpe]
      cases hcase : eligibleSpec st (id, d) with
      | true => rfl
      | false => exact ih hrest
  exact main st.apiPool hcap

/-- Claim C1: with no existing session, admission scans backends in registry
iteration order skipping exactly the disabled or at-capacity ones, assigns the
first eligible one, and when none is eligible answers capacity-exhausted with
the state — session store, counters, user sets — completely unchanged. -/
theorem c1_first_fit_scan (st : LBState) (u : String) (now : Nat)
    (hu : strOk u = true) (hns : st.sessions u = none)
    (hcap : ∀ p ∈ st.apiPool, 0 < p.2.maxSessions) :
    getAvailableAPI st = st.apiPool.find? (eligibleSpec st) ∧
    (st.apiPool.find? (eligibleSpec st) = none →
      getApiSession st u now = (AdmitResult.capacityExhausted, st)) ∧
    (∀ id d, st.apiPool.find? (eligibleSpec st) = some (id, d) →
      (getApiSession st u now).1 = AdmitResult.assigned id d.apiKey d.characterId) := by
  have heq := getAvailableAPI_eq_spec st hcap
  have hlive : liveSession st now u = none := by simp [liveSession, hns]
  refine ⟨heq, ?_, ?_⟩
  · intro hnone
    have hga : getAvailableAPI st = none := heq.trans hnone
    simp [getApiSession, hu, hlive, assignNew, hga]
  · intro id d hsome
    have hga : getAvailableAPI st = some (id, d) := heq.trans hsome
    simp [getApiSession, hu, hlive, assignNew, hga]

theorem c1_first_fit_scan_witness :
    c1Example.apiPool.find? (eligibleSpec c1Example)
      = some ("c", { apiKey := "kc", characterId := "cc", maxSessions := 2,
                     enabled := some true }) ∧
    (getApiSession c1Example "u9" 0).1 = AdmitResult.assigned "c" "kc" "cc" := by
  have h := c1_first_fit_scan c1Example "u9" 0 (by decide) rfl (by decide)
  exact ⟨by decide, h.2.2 "c"
    { apiKey := "kc", characterId := "cc", maxSessions := 2, enabled := some true }
    (by decide)⟩

/-- Truncating the tail of an append before a 100-truncation is absorbed. -/
theorem take_append_take (a b : List AuditEvent) :
    (a ++ b.take 100).take 100 = (a ++ b).take 100 := by
  rw [List.take_append_eq_append_take, List.take_append_eq_append_take,
      List.take_take, min_eq_left (by omega : 100 - a.length ≤ 100)]

/-- Folding `record` calls over any log of at most 100 entries keeps the
newest-first, 100-bounded shape. -/
theorem foldl_logSessionEvent (es : List AuditEvent) :
    ∀ l : List AuditEvent, l.length ≤ 100 →
      es.foldl logSessionEvent l = (es.reverse ++ l).take 100 := by
  induction es with
  | nil =>
    intro l hl
    simp [List.take_of_length_le hl]
  | cons e es ih =>
    intro l hl
    simp only [List.foldl_cons]
    rw [ih (logSessionEvent l e) (by simp [logSessionEvent])]
    show (es.reverse ++ (e :: l).take 100).take 100 = _
    rw [take_append_take]
    simp [List.append_assoc]

/-- Claim C8: after any sequence of `record` calls the stored log is the
reversal of the append order truncated to 100 (newest first, at most 100);
every read returns at most 100 events; reading right after a clear returns
the empty sequence. -/
theorem c8_audit_log_bounds :
    (∀ st : LBState, (readEvents st).length ≤ 100) ∧
    (∀ es : List AuditEvent, buildLog es = es.reverse.take 100) ∧
    (∀ es : List AuditEvent,
        readEvents { initState with log := buildLog es } = es.reverse.take 100) ∧
    (∀ st : LBState, readEvents (clearEvents st) = []) := by
  have hbuild : ∀ es : List AuditEvent, buildLog es = es.reverse.take 100 := by
    intro es
    unfold buildLog
    rw [foldl_logSessionEvent es [] (by simp)]
    simp
  refine ⟨?_, hbuild, ?_, ?_⟩
  · intro st
    simp [readEvents]
  · intro es
    show (buildLog es).take 100 = es.reverse.take 100
    rw [hbuild, List.take_take, min_self]
  · intro st
    simp [readEvents, clearEvents]

/-- `SADD` really makes the element a member. -/
theorem mem_sadd (l : List String) (x : String) : x ∈ sadd l x := by
  unfold sadd
  by_cases hc : l.contains x = true
  · rw [if_pos hc]
    exact List.elem_iff.mp hc
  · rw [if_neg hc]
    exact List.mem_append_right l (List.mem_singleton.mpr rfl)

/-- Claim C9: when admission meets a live session record failing structural
validation, the record is deleted and a fresh assignment proceeds, but the
previously bound backend keeps its `activeCount` and its active-user set, so
the requester ends up counted on the old backend and the newly assigned one
at once. -/
theorem c9_corrupt_session_leak (st : LBState) (u : String) (now : Nat)
    (r : StoredSession) (tid : String) (td : ApiData)
    (hu : strOk u = true)
    (hs : liveSession st now u = some r)
    (hbad : validSessionRec r = false)
    (havail : getAvailableAPI { st with sessions := upd st.sessions u none }
        = some (tid, td))
    (hne : tid ≠ r.apiId) :
    (getApiSession st u now).1 = AdmitResult.assigned tid td.apiKey td.characterId ∧
    (getApiSession st u now).2.active r.apiId = st.active r.apiId ∧
    (getApiSession st u now).2.users r.apiId = st.users r.apiId ∧
    u ∈ (getApiSession st u now).2.users tid ∧
    (u ∈ st.users r.apiId → u ∈ (getApiSession st u now).2.users r.apiId) := by
  have hexp : getApiSession st u now
      = assignNew { st with sessions := upd st.sessions u none } u now := by
    simp [getApiSession, hu, hs, hbad]
  have hne2 : r.apiId ≠ tid := fun hx => hne hx.symm
  rw [hexp]
  unfold assignNew
  rw [havail]
  refine ⟨rfl, ?_, ?_, ?_, ?_⟩
  · simp [upd, hne2]
  · simp [upd, hne2]
  · show u ∈ upd _ tid (sadd _ u) tid
    simp only [upd, if_pos rfl]
    exact mem_sadd _ u
  · intro hmem
    show u ∈ upd _ tid _ r.apiId
    simpa [upd, hne2] using hmem

theorem c9_corrupt_session_leak_witness :
    (getApiSession c9Example "u1" 10).1 = AdmitResult.assigned "b1" "k1" "c1" ∧
    (getApiSession c9Example "u1" 10).2.active "b0" = c9Example.active "b0" ∧
    (getApiSession c9Example "u1" 10).2.users "b0" = c9Example.users "b0" ∧
    "u1" ∈ (getApiSession c9Example "u1" 10).2.users "b1" ∧
    "u1" ∈ (getApiSession c9Example "u1" 10).2.users "b0" := by
  have h := c9_corrupt_session_leak c9Example "u1" 10
    { apiId := "b0", apiKey := "", characterId := "c0", expiresAt := 1000 }
    "b1" { apiKey := "k1", characterId := "c1", maxSessions := 5, enabled := some true }
    (by decide) (by decide) (by decide) (by decide) (by decide)
  exact ⟨h.1, h.2.1, h.2.2.1, h.2.2.2.1, h.2.2.2.2 (by decide)⟩

/-- Re-reading a key just overwritten by `setPool` yields the new record. -/
theorem lookupPool_setPool (a : String) (d : ApiData) :
    ∀ pool : List (String × ApiData), (∃ old, lookupPool pool a = some old) →
      lookupPool (setPool pool a d) a = some d := by
  intro pool
  induction pool with
  | nil =>
    rintro ⟨old, h⟩
    simp [lookupPool] at h
  | cons p ps ih =>
    rintro ⟨old, h⟩
    by_cases hpa : (p.1 == a) = true
    · simp [lookupPool, setPool, List.find?, hpa]
    · have htail : lookupPool ps a = some old := by
        simpa [lookupPool, List.find?, hpa] using h
      simpa [lookupPool, setPool, List.find?, hpa] using ih ⟨old, htail⟩

/-- Full case characterization of `updateApi`: it either rejects leaving the
state untouched, or reports not-found leaving the state untouched, or stores
the merged record — whose capacity is then positive. -/
theorem updateApi_spec (st : LBState) (a : String) (k c : Option String)
    (m : Option Int) (e : Option Bool) :
    updateApi st a k c m e = (RegResult.invalidInput, st) ∨
    updateApi st a k c m e = (RegResult.notFound, st) ∨
    (∃ old, lookupPool st.apiPool a = some old ∧
      0 < (mergeApiData old k c m e).maxSessions ∧
      updateApi st a k c m e
        = (RegResult.ok,
           { st with apiPool := setPool st.apiPool a (mergeApiData old k c m e) })) := by
  unfold updateApi
  split
  · exact Or.inl rfl
  · split
    · exact Or.inr (Or.inl rfl)
    · next old heq =>
      split
      · exact Or.inl rfl
      · next hcond =>
        refine Or.inr (Or.inr ⟨old, heq, ?_, rfl⟩)
        have hcf : ((mergeApiData old k c m e).apiKey == ""
            || (mergeApiData old k c m e).characterId == ""
            || decide ((mergeApiData old k c m e).maxSessions ≤ 0)
            || (mergeApiData old k c m e).enabled == none) = false :=
          Bool.eq_false_iff.mpr hcond
        simp only [Bool.or_eq_false_iff, decide_eq_false_iff_not] at hcf
        omega

/-- Claim C4 counterexample: updating registered backend `b1` (capacity 3)
with the non-positive capacity `-1` is not rejected with invalid input — the
endpoint reports success, silently keeping the old capacity. -/
theorem c4_update_counterexample :
    (updateApi c4Example "b1" none none (some (-1)) none).1 = RegResult.ok ∧
    (updateApi c4Example "b1" none none (some (-1)) none).1
      ≠ RegResult.invalidInput := by
  decide

/-- Claim C4 (amended): an add with non-positive capacity is rejected with
invalid input before any state change; an update with a non-positive provided
capacity behaves exactly as if no capacity had been provided (the value is
ignored, not rejected); every invalid-input rejection of update leaves the
state unchanged; and a successful update never stores a record with
non-positive capacity. -/
theorem c4_capacity_enforcement :
    (∀ (st : LBState) (a k c : String) (m : Int), m ≤ 0 →
        addApi st a k c m = (RegResult.invalidInput, st)) ∧
    (∀ (st : LBState) (a : String) (k c : Option String) (m : Int)
        (e : Option Bool), m ≤ 0 →
        updateApi st a k c (some m) e = updateApi st a k c none e) ∧
    (∀ (st : LBState) (a : String) (k c : Option String) (m : Option Int)
        (e : Option Bool),
        (updateApi st a k c m e).1 = RegResult.invalidInput →
        (updateApi st a k c m e).2 = st) ∧
    (∀ (st : LBState) (a : String) (k c : Option String) (m : Option Int)
        (e : Option Bool) (d : ApiData),
        (updateApi st a k c m e).1 = RegResult.ok →
        lookupPool (updateApi st a k c m e).2.apiPool a = some d →
        0 < d.maxSessions) := by
  refine ⟨?_, ?_, ?_, ?_⟩
  · intro st a k c m hm
    have hd : decide (m ≤ 0) = true := decide_eq_true hm
    unfold addApi
    rw [hd]
    simp
  · intro st a k c m e hm
    unfold updateApi
    cases hstr : strOk a with
    | false => rfl
    | true =>
      cases hlk : lookupPool st.apiPool a with
      | none => simp [hlk]
      | some old =>
        have hmerge : mergeApiData old k c (some m) e
            = mergeApiData old k c none e := by
          unfold mergeApiData
          simp [if_neg (by omega : ¬ 0 < m)]
        simp [hlk, hmerge]
  · intro st a k c m e h
    rcases updateApi_spec st a k c m e with h1 | h1 | ⟨old, hlk, hpos, h1⟩
    · rw [h1]
    · rw [h1] at h
      simp at h
    · rw [h1] at h
      simp at h
  · intro st a k c m e d hok hlkd
    rcases updateApi_spec st a k c m e with h1 | h1 | ⟨old, hlk, hpos, h1⟩
    · rw [h1] at hok
      simp at hok
    · rw [h1] at hok
      simp at hok
    · rw [h1] at hlkd
      have hset : lookupPool (setPool st.apiPool a (mergeApiData old k c m e)) a
          = some (mergeApiData old k c m e) :=
        lookupPool_setPool a (mergeApiData old k c m e) st.apiPool ⟨old, hlk⟩
      have hd : mergeApiData old k c m e = d := by
        apply Option.some_inj.mp
        rw [← hset]
        exact hlkd
      rw [← hd]
      exact hpos

theorem c4_capacity_enforcement_witness :
    addApi initState "b1" "k" "c" (-2) = (RegResult.invalidInput, initState) ∧
    updateApi c4Example "b1" none none (some (-3)) none
      = updateApi c4Example "b1" none none none none := by
  have h := c4_capacity_enforcement
  exact ⟨h.1 initState "b1" "k" "c" (-2) (by omega),
         h.2.1 c4Example "b1" none none (-3) none (by omega)⟩

/-- Writing a nonnegative value into a nonnegative counter map keeps every
counter nonnegative. -/
theorem upd_nonneg {f : String → Int} {k : String} {v : Int}
    (hf : ∀ x, 0 ≤ f x) (hv : 0 ≤ v) : ∀ x, 0 ≤ upd f k v x := by
  intro x
  unfold upd
  split
  · exact hv
  · exact hf x

theorem assignNew_nonneg (st : LBState) (u : String) (now : Nat)
    (h : CountersNonneg st) : CountersNonneg (assignNew st u now).2 := by
  unfold assignNew
  cases hga : getAvailableAPI st with
  | none => exact h
  | some p =>
    obtain ⟨id, d⟩ := p
    intro x
    show 0 ≤ upd st.active id (st.active id + 1) x
    exact upd_nonneg h (by have := h id; omega) x

theorem getApiSession_nonneg (st : LBState) (u : String) (now : Nat)
    (h : CountersNonneg st) : CountersNonneg (getApiSession st u now).2 := by
  unfold getApiSession
  split
  · exact h
  · split
    · split
      · exact h
      · exact assignNew_nonneg _ u now h
    · exact assignNew_nonneg st u now h

theorem endSession_nonneg (st : LBState) (u : String) (now : Nat)
    (h : CountersNonneg st) : CountersNonneg (endSession st u now).2 := by
  unfold endSession
  split
  · exact h
  · split
    · exact h
    · split
      · exact h
      · intro x
        show 0 ≤ (if st.active _ > 0 then upd st.active _ (st.active _ - 1)
                  else st.active) x
        split
        · next hgt => exact upd_nonneg h (by omega) x
        · exact h x

theorem addApi_nonneg (st : LBState) (a k c : String) (m : Int)
    (h : CountersNonneg st) : CountersNonneg (addApi st a k c m).2 := by
  unfold addApi
  split
  · exact h
  · split
    · exact h
    · exact upd_nonneg h le_rfl

theorem updateApi_nonneg (st : LBState) (a : String) (k c : Option String)
    (m : Option Int) (e : Option Bool) (h : CountersNonneg st) :
    CountersNonneg (updateApi st a k c m e).2 := by
  rcases updateApi_spec st a k c m e with h1 | h1 | ⟨old, hlk, hpos, h1⟩ <;>
    rw [h1] <;> exact h

theorem toggleApiStatus_nonneg (st : LBState) (a : String) (e : Bool)
    (h : CountersNonneg st) : CountersNonneg (toggleApiStatus st a e).2 := by
  unfold toggleApiStatus
  split
  · exact h
  · split
    · exact h
    · exact h

theorem removeApi_nonneg (st : LBState) (a : String)
    (h : CountersNonneg st) : CountersNonneg (removeApi st a).2 := by
  unfold removeApi
  split
  · exact h
  · split
    · exact h
    · exact upd_nonneg h le_rfl

theorem endAllSessionsForApi_nonneg (st : LBState) (a : String) (now : Nat)
    (h : CountersNonneg st) : CountersNonneg (endAllSessionsForApi st a now).2 := by
  unfold endAllSessionsForApi
  split
  · exact h
  · split
    · exact h
    · exact upd_nonneg h le_rfl

theorem applyOp_nonneg (st : LBState) (op : Op) (h : CountersNonneg st) :
    CountersNonneg (applyOp st op) := by
  cases op with
  | acquire u now => exact getApiSession_nonneg st u now h
  | endOne u now => exact endSession_nonneg st u now h
  | add a k c m => exact addApi_nonneg st a k c m h
  | update a k c m e => exact updateApi_nonneg st a k c m e h
  | toggle a e => exact toggleApiStatus_nonneg st a e h
  | remove a => exact removeApi_nonneg st a h
  | endAll a now => exact endAllSessionsForApi_nonneg st a now h
  | clearLog => exact h

theorem runOps_nonneg (ops : List Op) : CountersNonneg (runOps ops) := by
  unfold runOps
  suffices hgen : ∀ (l : List Op) (s : LBState), CountersNonneg s →
      CountersNonneg (l.foldl applyOp s) by
    exact hgen ops initState (fun x => le_rfl)
  intro l
  induction l with
  | nil => exact fun s hs => hs
  | cons o l ih => exact fun s hs => ih _ (applyOp_nonneg s o hs)

/-- Claim C6: in every state reachable through the exposed operations every
backend's active counter is nonnegative; and terminating a live session whose
backend's counter is already zero skips the decrement (the counter stays
zero) while still deleting the session record. -/
theorem c6_active_nonneg (st : LBState) (hr : Reachable st) :
    CountersNonneg st ∧
    (∀ (u : String) (now : Nat) (r : StoredSession),
      strOk u = true → liveSession st now u = some r → strOk r.apiId = true →
      st.active r.apiId = 0 →
      (endSession st u now).1 = EndResult.endedOk ∧
      (endSession st u now).2.active r.apiId = 0 ∧
      (endSession st u now).2.sessions u = none) := by
  obtain ⟨ops, rfl⟩ := hr
  refine ⟨runOps_nonneg ops, ?_⟩
  intro u now r hu hl hv hz
  refine ⟨?_, ?_, ?_⟩
  · simp [endSession, hu, hl, hv]
  · simp [endSession, hu, hl, hv, hz]
  · simp [endSession, hu, hl, hv, upd]

theorem c6_active_nonneg_witness :
    (0 ≤ (runOps c6Ops).active "b1") ∧
    (endSession (runOps c6Ops) "u1" 1).1 = EndResult.endedOk ∧
    (endSession (runOps c6Ops) "u1" 1).2.active "b1" = 0 ∧
    (endSession (runOps c6Ops) "u1" 1).2.sessions "u1" = none := by
  have h := c6_active_nonneg (runOps c6Ops) ⟨c6Ops, rfl⟩
  have h2 := h.2 "u1" 1
    { apiId := "b1", apiKey := "k", characterId := "c", expiresAt := 900 }
    (by decide) (by decide) (by decide) (by decide)
  exact ⟨h.1 "b1", h2.1, h2.2.1, h2.2.2⟩
